import Mathlib

/-!
Shallow embedding of the Voltaro OCPP 1.6 Central System
(`app/handlers/charge_point.py`, `app/central_system.py`,
`app/connection_manager.py`, `app/models/schema.py`).

Timestamps are naive-UTC instants modelled as `Nat`; database tables are
lists of row structures; the float `energy_consumed` column is modelled
exactly as `ℚ`.  Nondeterministic inputs of the handlers (the randomly
generated transaction id, whether a DB commit raises, the charge point's
reply to an outbound Call) are passed as explicit oracle parameters.
-/

namespace Voltaro

/-- A row of the `id_tags` table (`schema.py`, class `IdTag`). -/
structure IdTagRow where
  id : Nat
  tag : String
  status : String
  expiryDate : Option Nat
  parentIdTag : Option String
deriving DecidableEq, Repr

/-- The `idTagInfo` dictionary built by `_get_id_tag_info`; absent keys are
`none`. -/
structure IdTagInfo where
  status : String
  expiryDate : Option Nat
  parentIdTag : Option String
deriving DecidableEq, Repr

/-- A row of the `sessions` table (`schema.py`, class `Session`).
`meter_start` is a non-nullable column, so it is a plain `Int`. -/
structure SessionRow where
  id : Nat
  transactionId : Int
  chargePointId : String
  idTagId : Nat
  connectorId : Int
  meterStart : Int
  meterStop : Option Int
  startTimestamp : Nat
  stopTimestamp : Option Nat
  status : String
  stopReason : Option String
  energyConsumed : Option ℚ
  reservationId : Option Int
  updatedAt : Option Nat
deriving DecidableEq, Repr

/-- A row of the `charge_points` table (`schema.py`, class `ChargePoint`),
restricted to the columns the embedded operations read or write. -/
structure ChargePointRow where
  id : String
  vendor : Option String
  model : Option String
  chargePointSerialNumber : Option String
  firmwareVersion : Option String
  status : String
  lastSeen : Option Nat
  isOnline : Bool
  bootStatus : Option String
deriving DecidableEq, Repr

/-- A row of the `meter_values` table (`schema.py`, class `MeterValue`). -/
structure MeterValueRow where
  sessionId : Option Nat
  timestamp : Nat
  value : ℚ
  unit : String
  measurand : String
  phase : Option String
  location : String
  context : String
  format : String
deriving DecidableEq, Repr

/-- One `sampledValue` dictionary of a MeterValues payload; `none` in
`value` models a non-numeric entry (which `float()` rejects), `none`
elsewhere models an absent key (the handler substitutes defaults). -/
structure SampledValue where
  value : Option ℚ
  context : Option String
  format : Option String
  measurand : Option String
  phase : Option String
  location : Option String
  unit : Option String
deriving DecidableEq, Repr

/-- One element of a `meterValue` / `transactionData` list. -/
structure MeterValueEntry where
  timestamp : Option Nat
  sampledValue : List SampledValue
deriving DecidableEq, Repr

/-- The persistent store: the tables of `schema.py` plus the autoincrement
counter for the `sessions` surrogate key. -/
structure Db where
  chargePoints : List ChargePointRow
  idTags : List IdTagRow
  sessions : List SessionRow
  meterValues : List MeterValueRow
  nextSessionId : Nat
deriving DecidableEq, Repr

/-- `ChargePoint._get_id_tag_info` (`charge_point.py` lines 623-669), the
ID-tag predicate shared by Authorize, StartTransaction and StopTransaction.
The expiry test `tag_record.expiry_date and tag_record.expiry_date < now`
runs before the stored status is consulted. -/
def get_id_tag_info (tags : List IdTagRow) (idTag : String) (now : Nat) :
    IdTagInfo :=
  match tags.find? (fun t => t.tag == idTag) with
  | none => ⟨"Invalid", none, none⟩
  | some t =>
    match t.expiryDate with
    | some e =>
      if e < now then ⟨"Expired", some e, none⟩
      else ⟨t.status, some e, t.parentIdTag⟩
    | none => ⟨t.status, none, t.parentIdTag⟩

/-- `ChargePoint.on_authorize` (`charge_point.py` lines 125-134): the
Authorize handler returns the predicate's `idTagInfo` unchanged. -/
def on_authorize (db : Db) (idTag : String) (now : Nat) : IdTagInfo :=
  get_id_tag_info db.idTags idTag now

/-- The result dictionary of `CentralSystem.validate_id_tag`, restricted to
the keys every branch populates. -/
structure ValidationResult where
  valid : Bool
  status : String
  reason : Option String
deriving DecidableEq, Repr

/-- `CentralSystem.validate_id_tag` (`central_system.py` lines 279-345).
Unlike `get_id_tag_info`, the Blocked test runs before the expiry test. -/
def validate_id_tag (tags : List IdTagRow) (idTag : String) (now : Nat) :
    ValidationResult :=
  match tags.find? (fun t => t.tag == idTag) with
  | none => ⟨false, "Invalid", some "ID tag not found"⟩
  | some t =>
    if t.status == "Blocked" then ⟨false, "Blocked", some "ID tag is blocked"⟩
    else
      match t.expiryDate with
      | some e =>
        if e < now then ⟨false, "Expired", some "ID tag has expired"⟩
        else ⟨true, "Accepted", none⟩
      | none => ⟨true, "Accepted", none⟩

/-- The `StartTransaction.conf` payload. -/
structure StartTxResult where
  idTagInfo : IdTagInfo
  transactionId : Int
deriving DecidableEq, Repr

/-- `ChargePoint.on_start_transaction` (`charge_point.py` lines 136-204).
`genTxId` is the id `_generate_transaction_id` produced (a fresh random
integer in [100000, 999999]); `insertFails` models the commit of the
session insert raising, in which case the handler rolls back and forces
`id_tag_info` to `{"status": "Invalid"}` while `transaction_id` keeps the
already-generated value. -/
def on_start_transaction (db : Db) (cpId : String) (connectorId : Int)
    (idTag : String) (meterStart : Int) (timestamp : Nat)
    (reservationId : Option Int) (genTxId : Int) (insertFails : Bool)
    (now : Nat) : StartTxResult × Db :=
  let info := get_id_tag_info db.idTags idTag now
  if info.status == "Accepted" then
    match db.idTags.find? (fun t => t.tag == idTag) with
    | some tagRecord =>
      if insertFails then
        (⟨⟨"Invalid", none, none⟩, genTxId⟩, db)
      else
        let newSession : SessionRow :=
          ⟨db.nextSessionId, genTxId, cpId, tagRecord.id, connectorId,
           meterStart, none, timestamp, none, "Active", none, none,
           reservationId, none⟩
        (⟨info, genTxId⟩,
         { db with
             sessions := db.sessions ++ [newSession],
             nextSessionId := db.nextSessionId + 1 })
    | none => (⟨⟨"Invalid", none, none⟩, 0⟩, db)
  else
    (⟨info, 0⟩, db)

/-- One `sampledValue` turned into a `MeterValue` row with the defaults of
the handlers; `none` for a non-numeric value, which the loops skip. -/
def sampledValueRow (sessionId : Option Nat) (ts : Nat)
    (defaultContext : String) (sv : SampledValue) : Option MeterValueRow :=
  match sv.value with
  | none => none
  | some v =>
    some ⟨sessionId, ts, v, sv.unit.getD "Wh",
          sv.measurand.getD "Energy.Active.Import.Register", sv.phase,
          sv.location.getD "Outlet", sv.context.getD defaultContext,
          sv.format.getD "Raw"⟩

/-- The inner loop both `on_meter_values` and `on_stop_transaction` run
over one `meterValue` / `transactionData` entry. -/
def meterEntryRows (sessionId : Option Nat) (now : Nat)
    (defaultContext : String) (entry : MeterValueEntry) :
    List MeterValueRow :=
  let ts := entry.timestamp.getD now
  entry.sampledValue.filterMap (sampledValueRow sessionId ts defaultContext)

/-- `ChargePoint.on_meter_values` (`charge_point.py` lines 206-295).  The
Python guard `if transaction_id:` is false for both `None` and `0`, so a
zero transaction id skips the session lookup. -/
def on_meter_values (db : Db) (connectorId : Int)
    (meterValue : List MeterValueEntry) (transactionId : Option Int)
    (now : Nat) : Db :=
  let sessionRecord : Option SessionRow :=
    match transactionId with
    | some txId =>
      if txId == 0 then none
      else db.sessions.find? (fun s => s.transactionId == txId)
    | none => none
  let rows :=
    meterValue.flatMap
      (meterEntryRows (sessionRecord.map (fun s => s.id)) now
        "Sample.Periodic")
  { db with meterValues := db.meterValues ++ rows }

/-- The `StopTransaction.conf` payload: `{}` or `{idTagInfo}`. -/
structure StopTxResult where
  idTagInfo : Option IdTagInfo
deriving DecidableEq, Repr

/-- The mutation `on_stop_transaction` applies to the located session
(`charge_point.py` lines 335-346): the `meter_start is not None` guard is
always true since the column is non-nullable, so `energy_consumed` is
always recomputed from the incoming `meter_stop`. -/
def stoppedSession (s : SessionRow) (meterStop : Int) (stopTime : Nat)
    (reason : String) (now : Nat) : SessionRow :=
  { s with
      meterStop := some meterStop,
      stopTimestamp := some stopTime,
      status := "Completed",
      stopReason := some reason,
      updatedAt := some now,
      energyConsumed := some (((meterStop : ℚ) - (s.meterStart : ℚ)) / 1000) }

/-- `ChargePoint.on_stop_transaction` (`charge_point.py` lines 297-430).
The session located by `transaction_id` is mutated whenever it is found —
there is no check of its current status.  The Python guard `if id_tag:` is
false for the empty string as well as for an absent key. -/
def on_stop_transaction (db : Db) (cpId : String) (transactionId : Int)
    (timestamp : Nat) (meterStop : Int) (idTag : Option String)
    (reason : Option String) (transactionData : List MeterValueEntry)
    (now : Nat) : StopTxResult × Db :=
  let reasonVal := reason.getD "Local"
  let sessionRecord :=
    db.sessions.find? (fun s => s.transactionId == transactionId)
  let newSessions :=
    match sessionRecord with
    | none => db.sessions
    | some _ =>
      db.sessions.map (fun s =>
        if s.transactionId == transactionId then
          stoppedSession s meterStop timestamp reasonVal now
        else s)
  let rows :=
    transactionData.flatMap
      (meterEntryRows (sessionRecord.map (fun s => s.id)) now
        "Transaction.End")
  let info :=
    match idTag with
    | some t =>
      if t == "" then none else some (get_id_tag_info db.idTags t now)
    | none => none
  (⟨info⟩,
   { db with
       sessions := newSessions,
       meterValues := db.meterValues ++ rows })

/-- A record of an outbound OCPP Call dispatched over a live session; the
pre-validation paths of the commands return before any such Call exists. -/
structure SentCall where
  chargePointId : String
  action : String
  transactionId : Option Int
deriving DecidableEq, Repr

/-- The result dictionary of the Central System commands, restricted to
the keys the claims concern. -/
structure RemoteResult where
  success : Bool
  status : String
  error : Option String
deriving DecidableEq, Repr

/-- The error string `remote_start_transaction` returns when the DB row
says the charge point is online but the process-local registry has no
entry for it (`central_system.py` lines 58-62). -/
def cpOnlineElsewhereError : String :=
  "Charge point is online but not connected to this Central System process. Central System operations must run in the same process as the OCPP server."

/-- The plain error string for a charge point with no live connection
(`central_system.py` lines 65-69 and 188-192). -/
def cpNotConnectedError : String := "Charge point not connected"

/-- `CentralSystem.remote_start_transaction` (`central_system.py` lines
23-122).  The registry is the process-local `_connected_charge_points`
key set; `cpResponse` is the status of the charge point's `CallResult`.
The second component records the outbound Call, `none` when the command
returns before networking. -/
def remote_start_transaction (db : Db) (registry : List String)
    (chargePointId : String) (idTag : String) (connectorId : Option Int)
    (now : Nat) (cpResponse : String) : RemoteResult × Option SentCall :=
  if registry.contains chargePointId then
    let v := validate_id_tag db.idTags idTag now
    if v.valid then
      (⟨true, cpResponse, none⟩,
       some ⟨chargePointId, "RemoteStartTransaction", none⟩)
    else
      (⟨false, "Rejected",
        some ("ID tag validation failed: " ++ v.reason.getD "")⟩, none)
  else
    match db.chargePoints.find? (fun cp => cp.id == chargePointId) with
    | some cpRecord =>
      if cpRecord.isOnline then
        (⟨false, "Rejected", some cpOnlineElsewhereError⟩, none)
      else
        (⟨false, "Rejected", some cpNotConnectedError⟩, none)
    | none => (⟨false, "Rejected", some cpNotConnectedError⟩, none)

/-- `CentralSystem.remote_stop_transaction` (`central_system.py` lines
124-215).  The transaction is pre-validated (existence under the given
charge point, then `status == "Active"`) before the registry is even
consulted; an absent registry entry yields the plain not-connected error
with no DB consultation. -/
def remote_stop_transaction (db : Db) (registry : List String)
    (chargePointId : String) (transactionId : Int) (cpResponse : String) :
    RemoteResult × Option SentCall :=
  match db.sessions.find? (fun s =>
      s.transactionId == transactionId &&
      s.chargePointId == chargePointId) with
  | none =>
    (⟨false, "Rejected", some "Transaction not found for charge point"⟩,
     none)
  | some sessionRecord =>
    if sessionRecord.status != "Active" then
      (⟨false, "Rejected", some "Transaction is not active"⟩, none)
    else if registry.contains chargePointId then
      (⟨true, cpResponse, none⟩,
       some ⟨chargePointId, "RemoteStopTransaction", some transactionId⟩)
    else
      (⟨false, "Rejected", some cpNotConnectedError⟩, none)

/-- `register_charge_point` (`connection_manager.py` lines 19-57).  The
in-memory registry entry is replaced (dict assignment).  The write-through:
an existing row gets `is_online := true`, `last_seen := now`, and
`status := "Available"`; a missing row is created with the test-client
defaults `vendor="Mock"`, `model="TestCP"` (the remaining columns keep
their schema defaults). -/
def register_charge_point (db : Db) (registry : List String)
    (chargePointId : String) (now : Nat) : Db × List String :=
  let registry' :=
    chargePointId :: registry.filter (fun c => c != chargePointId)
  match db.chargePoints.find? (fun cp => cp.id == chargePointId) with
  | some _ =>
    ({ db with
         chargePoints := db.chargePoints.map (fun cp =>
           if cp.id == chargePointId then
             { cp with
                 isOnline := true,
                 lastSeen := some now,
                 status := "Available" }
           else cp) },
     registry')
  | none =>
    let newCp : ChargePointRow :=
      { id := chargePointId, vendor := some "Mock", model := some "TestCP",
        chargePointSerialNumber := none, firmwareVersion := none,
        status := "Available", lastSeen := some now, isOnline := true,
        bootStatus := some "Accepted" }
    ({ db with chargePoints := db.chargePoints ++ [newCp] }, registry')

/-- One inbound handler invocation, with its oracle inputs, for stating
invariants over arbitrary operation sequences. -/
inductive HandlerOp where
  | startTx (cpId : String) (connectorId : Int) (idTag : String)
      (meterStart : Int) (timestamp : Nat) (reservationId : Option Int)
      (genTxId : Int) (insertFails : Bool) (now : Nat)
  | stopTx (cpId : String) (transactionId : Int) (timestamp : Nat)
      (meterStop : Int) (idTag : Option String) (reason : Option String)
      (transactionData : List MeterValueEntry) (now : Nat)
  | meterVals (connectorId : Int) (meterValue : List MeterValueEntry)
      (transactionId : Option Int) (now : Nat)
deriving DecidableEq, Repr

/-- The database component of one handler invocation. -/
def applyOp (db : Db) : HandlerOp → Db
  | .startTx cpId cid tag ms ts rid gtx fail now =>
    (on_start_transaction db cpId cid tag ms ts rid gtx fail now).2
  | .stopTx cpId txId ts ms tag r td now =>
    (on_stop_transaction db cpId txId ts ms tag r td now).2
  | .meterVals cid mv tx now => on_meter_values db cid mv tx now

/-- A sequence of handler invocations, applied left to right. -/
def applyOps (db : Db) (ops : List HandlerOp) : Db := ops.foldl applyOp db

/-- The per-row energy equation of spec §8: a non-null `meter_stop` forces
`energy_consumed = (meter_stop − meter_start) / 1000`. -/
def sessionEnergyOk (s : SessionRow) : Bool :=
  match s.meterStop with
  | none => true
  | some ms =>
    s.energyConsumed == some (((ms : ℚ) - (s.meterStart : ℚ)) / 1000)

/-- The energy invariant over the whole `sessions` table. -/
def energyInv (db : Db) : Prop := ∀ s ∈ db.sessions, sessionEnergyOk s = true

instance (db : Db) : Decidable (energyInv db) :=
  inferInstanceAs (Decidable (∀ s ∈ db.sessions, sessionEnergyOk s = true))

/-! ## Helper lemmas -/

/-- The session `on_stop_transaction` writes always satisfies the energy
equation. -/
theorem stoppedSession_energyOk (s : SessionRow) (ms : Int) (ts : Nat)
    (r : String) (now : Nat) :
    sessionEnergyOk (stoppedSession s ms ts r now) = true := by
  simp [sessionEnergyOk, stoppedSession]

/-- When no session matches the transaction id, `on_stop_transaction`
leaves the sessions table unchanged. -/
theorem stop_sessions_of_find_none (db : Db) (cpId : String) (txId : Int)
    (ts : Nat) (ms : Int) (idTag : Option String) (reason : Option String)
    (td : List MeterValueEntry) (now : Nat)
    (hfind : db.sessions.find? (fun s => s.transactionId == txId) = none) :
    (on_stop_transaction db cpId txId ts ms idTag reason td now).2.sessions =
      db.sessions := by
  unfold on_stop_transaction
  rw [hfind]

/-- When a session matches the transaction id, `on_stop_transaction`
rewrites every matching row with `stoppedSession` and keeps the rest. -/
theorem stop_sessions_of_find_some (db : Db) (cpId : String) (txId : Int)
    (ts : Nat) (ms : Int) (idTag : Option String) (reason : Option String)
    (td : List MeterValueEntry) (now : Nat) (s : SessionRow)
    (hfind : db.sessions.find? (fun x => x.transactionId == txId) = some s) :
    (on_stop_transaction db cpId txId ts ms idTag reason td now).2.sessions =
      db.sessions.map (fun x =>
        if x.transactionId == txId then
          stoppedSession x ms ts (reason.getD "Local") now
        else x) := by
  unfold on_stop_transaction
  rw [hfind]

/-- One handler invocation preserves the energy invariant. -/
theorem applyOp_energyInv (db : Db) (op : HandlerOp) (h : energyInv db) :
    energyInv (applyOp db op) := by
  cases op with
  | startTx cpId cid tag ms ts rid gtx fail now =>
    intro s hs
    unfold applyOp on_start_transaction at hs
    dsimp only at hs
    split at hs
    · split at hs
      · split at hs
        · exact h s hs
        · simp only [List.mem_append, List.mem_singleton] at hs
          rcases hs with hs | rfl
          · exact h s hs
          · simp [sessionEnergyOk]
      · exact h s hs
    · exact h s hs
  | stopTx cpId txId ts ms tag r td now =>
    intro s hs
    unfold applyOp at hs
    cases hfind : db.sessions.find? (fun x => x.transactionId == txId) with
    | none =>
      rw [stop_sessions_of_find_none db cpId txId ts ms tag r td now hfind]
        at hs
      exact h s hs
    | some s0 =>
      rw [stop_sessions_of_find_some db cpId txId ts ms tag r td now s0
        hfind] at hs
      simp only [List.mem_map] at hs
      obtain ⟨x, hx, rfl⟩ := hs
      split
      · exact stoppedSession_energyOk x ms ts (r.getD "Local") now
      · exact h x hx
  | meterVals cid mv tx now =>
    intro s hs
    unfold applyOp on_meter_values at hs
    exact h s hs

/-! ## C1 — Authorize on a Blocked and expired tag -/

/-- The database for the C1 input: one tag `BLOCKED001` with stored status
`Blocked` and expiry instant 10. -/
def dbC1 : Db := ⟨[], [⟨1, "BLOCKED001", "Blocked", some 10, none⟩], [], [], 1⟩

/-- C1, counterexample: at time 20 the tag `BLOCKED001` is Blocked with an
expiry in the past, yet the Authorize predicate `_get_id_tag_info` answers
`Expired`, not `Blocked` — the Expired check runs first. -/
theorem C1_counterexample :
    dbC1.idTags.find? (fun t => t.tag == "BLOCKED001") =
      some ⟨1, "BLOCKED001", "Blocked", some 10, none⟩ ∧
    10 < 20 ∧
    (on_authorize dbC1 "BLOCKED001" 20).status = "Expired" ∧
    (on_authorize dbC1 "BLOCKED001" 20).status ≠ "Blocked" := by decide

/-- C1, amended: for every Authorize request whose idTag row exists with
status `Blocked` and an expiry earlier than now, the Authorize predicate
`_get_id_tag_info` returns status `Expired` — the Expired check takes
precedence there; the Blocked-over-Expired order holds only in
`CentralSystem.validate_id_tag`. -/
theorem C1_expired_overrides_blocked (db : Db) (idTag : String) (now : Nat)
    (t : IdTagRow) (e : Nat)
    (hfind : db.idTags.find? (fun r => r.tag == idTag) = some t)
    (hstatus : t.status = "Blocked")
    (hexp : t.expiryDate = some e) (hlt : e < now) :
    (on_authorize db idTag now).status = "Expired" ∧
    (validate_id_tag db.idTags idTag now).status = "Blocked" := by
  constructor
  · unfold on_authorize get_id_tag_info
    rw [hfind]
    dsimp only
    rw [hexp]
    simp [hlt]
  · unfold validate_id_tag
    rw [hfind]
    dsimp only
    simp [hstatus]

/-- C1, witness: the amended theorem applied at the concrete C1 input. -/
theorem C1_expired_overrides_blocked_witness :
    (dbC1.idTags.find? (fun r => r.tag == "BLOCKED001") =
        some ⟨1, "BLOCKED001", "Blocked", some 10, none⟩ ∧ 10 < 20) ∧
    ((on_authorize dbC1 "BLOCKED001" 20).status = "Expired" ∧
     (validate_id_tag dbC1.idTags "BLOCKED001" 20).status = "Blocked") :=
  ⟨by decide,
   C1_expired_overrides_blocked dbC1 "BLOCKED001" 20
     ⟨1, "BLOCKED001", "Blocked", some 10, none⟩ 10
     (by decide) rfl rfl (by decide)⟩

/-! ## C3 — StartTransaction with a tag that does not resolve to Accepted -/

/-- C3: when the resolved tag status is anything other than `Accepted`,
`on_start_transaction` answers `transactionId = 0` with the resolved
`idTagInfo` unchanged, and the database — in particular the sessions
table — is untouched. -/
theorem C3_rejected_tag_creates_no_session (db : Db) (cpId : String)
    (connectorId : Int) (idTag : String) (meterStart : Int)
    (timestamp : Nat) (reservationId : Option Int) (genTxId : Int)
    (insertFails : Bool) (now : Nat)
    (h : (get_id_tag_info db.idTags idTag now).status ≠ "Accepted") :
    on_start_transaction db cpId connectorId idTag meterStart timestamp
        reservationId genTxId insertFails now =
      (⟨get_id_tag_info db.idTags idTag now, 0⟩, db) := by
  unfold on_start_transaction
  simp [h]

/-- The database for the C3 witness: one Blocked tag `BLOCKED002`. -/
def dbC3 : Db := ⟨[], [⟨1, "BLOCKED002", "Blocked", none, none⟩], [], [], 1⟩

/-- C3, witness: a StartTransaction with the Blocked tag at the concrete
C3 input. -/
theorem C3_rejected_tag_creates_no_session_witness :
    (get_id_tag_info dbC3.idTags "BLOCKED002" 5).status ≠ "Accepted" ∧
    on_start_transaction dbC3 "CP001" 1 "BLOCKED002" 1000 5 none 123456
        false 5 =
      (⟨get_id_tag_info dbC3.idTags "BLOCKED002" 5, 0⟩, dbC3) :=
  ⟨by decide,
   C3_rejected_tag_creates_no_session dbC3 "CP001" 1 "BLOCKED002" 1000 5
     none 123456 false 5 (by decide)⟩

/-! ## C2 — StopTransaction on a session that is already Completed -/

/-- A session already stopped: transaction 123, `meter_start = 1000`,
`meter_stop = 5000`, status `Completed`. -/
def sC2 : SessionRow :=
  ⟨1, 123, "CP001", 2, 1, 1000, some 5000, 50, some 60, "Completed",
   some "Local", some 4, none, some 60⟩

/-- The database for the C2 input. -/
def dbC2 : Db := ⟨[], [], [sC2], [], 2⟩

/-- C2, counterexample: a second StopTransaction on the already-Completed
session 123 rewrites its row (`meter_stop` becomes 9000), so the Session
row is not left unchanged. -/
theorem C2_counterexample :
    sC2.status = "Completed" ∧
    (on_stop_transaction dbC2 "CP001" 123 70 9000 none none [] 70).2.sessions
      ≠ dbC2.sessions ∧
    ((on_stop_transaction dbC2 "CP001" 123 70 9000 none none []
        70).2.sessions.find? (fun s => s.transactionId == 123)).map
      (fun s => s.meterStop) = some (some 9000) := by decide

/-- C2, amended: StopTransaction mutates the located Session whenever it
is found, with no status guard: even a Session whose status is already
`Completed` has its `meter_stop`, `stop_timestamp`, `stop_reason`,
`updated_at` and `energy_consumed` overwritten (and `status` rewritten to
`Completed`); the mutation is not once-and-terminal. -/
theorem C2_stop_mutates_any_found_session (db : Db) (cpId : String)
    (txId : Int) (ts : Nat) (meterStop : Int) (idTag : Option String)
    (reason : Option String) (td : List MeterValueEntry) (now : Nat)
    (s : SessionRow)
    (hfind : db.sessions.find? (fun x => x.transactionId == txId) = some s) :
    (on_stop_transaction db cpId txId ts meterStop idTag reason td
        now).2.sessions =
      db.sessions.map (fun x =>
        if x.transactionId == txId then
          stoppedSession x meterStop ts (reason.getD "Local") now
        else x) :=
  stop_sessions_of_find_some db cpId txId ts meterStop idTag reason td now
    s hfind

/-- C2, witness: the amended theorem applied at the concrete C2 input. -/
theorem C2_stop_mutates_any_found_session_witness :
    dbC2.sessions.find? (fun x => x.transactionId == 123) = some sC2 ∧
    (on_stop_transaction dbC2 "CP001" 123 70 9000 none none []
        70).2.sessions =
      dbC2.sessions.map (fun x =>
        if x.transactionId == 123 then
          stoppedSession x 9000 70 ((none : Option String).getD "Local") 70
        else x) :=
  ⟨by decide,
   C2_stop_mutates_any_found_session dbC2 "CP001" 123 70 9000 none none []
     70 sC2 (by decide)⟩

/-! ## C4 — StartTransaction whose session insert fails -/

/-- The database for the C4 input: one Accepted tag `VALID001`. -/
def dbC4 : Db := ⟨[], [⟨2, "VALID001", "Accepted", none, none⟩], [], [], 1⟩

/-- C4, counterexample: when the session insert fails after the
transaction id 123456 was generated, the response status is `Invalid` and
the database is rolled back, but `transactionId` in the response is
123456, not 0. -/
theorem C4_counterexample :
    (on_start_transaction dbC4 "CP001" 1 "VALID001" 1000 10 none 123456
        true 20).1.idTagInfo.status = "Invalid" ∧
    (on_start_transaction dbC4 "CP001" 1 "VALID001" 1000 10 none 123456
        true 20).2 = dbC4 ∧
    (on_start_transaction dbC4 "CP001" 1 "VALID001" 1000 10 none 123456
        true 20).1.transactionId = 123456 ∧
    (on_start_transaction dbC4 "CP001" 1 "VALID001" 1000 10 none 123456
        true 20).1.transactionId ≠ 0 := by decide

/-- C4, amended: when the tag resolves to Accepted and the session insert
fails, the response carries `idTagInfo.status = "Invalid"` and the
database is rolled back (no Session row persisted), but the response's
`transactionId` is the already-generated transaction id — the handler does
not reset it to 0. -/
theorem C4_insert_failure_rolls_back (db : Db) (cpId : String)
    (connectorId : Int) (idTag : String) (meterStart : Int)
    (timestamp : Nat) (reservationId : Option Int) (genTxId : Int)
    (now : Nat) (t : IdTagRow)
    (haccept : (get_id_tag_info db.idTags idTag now).status = "Accepted")
    (hfind : db.idTags.find? (fun r => r.tag == idTag) = some t) :
    on_start_transaction db cpId connectorId idTag meterStart timestamp
        reservationId genTxId true now =
      (⟨⟨"Invalid", none, none⟩, genTxId⟩, db) := by
  unfold on_start_transaction
  rw [hfind]
  simp [haccept]

/-- C4, witness: the amended theorem applied at the concrete C4 input. -/
theorem C4_insert_failure_rolls_back_witness :
    ((get_id_tag_info dbC4.idTags "VALID001" 20).status = "Accepted" ∧
     dbC4.idTags.find? (fun r => r.tag == "VALID001") =
       some ⟨2, "VALID001", "Accepted", none, none⟩) ∧
    on_start_transaction dbC4 "CP001" 1 "VALID001" 1000 10 none 123456
        true 20 =
      (⟨⟨"Invalid", none, none⟩, 123456⟩, dbC4) :=
  ⟨by decide,
   C4_insert_failure_rolls_back dbC4 "CP001" 1 "VALID001" 1000 10 none
     123456 20 ⟨2, "VALID001", "Accepted", none, none⟩ (by decide)
     (by decide)⟩

/-! ## C5 — the energy equation is an invariant of the handlers -/

/-- C5: after any sequence of StartTransaction, StopTransaction and
MeterValues invocations from a state satisfying the energy invariant,
every Session row with a non-null `meter_stop` has
`energy_consumed = (meter_stop − meter_start) / 1000`. -/
theorem C5_energy_invariant (db : Db) (ops : List HandlerOp)
    (h : energyInv db) : energyInv (applyOps db ops) := by
  induction ops generalizing db with
  | nil => exact h
  | cons op rest ih => exact ih (applyOp db op) (applyOp_energyInv db op h)

/-- The database for the C5 witness: one Accepted tag, no sessions. -/
def dbC5 : Db := ⟨[], [⟨2, "VALID001", "Accepted", none, none⟩], [], [], 1⟩

/-- The operation sequence for the C5 witness: a StartTransaction followed
by the matching StopTransaction (`meter_start = 1000`,
`meter_stop = 16000`). -/
def opsC5 : List HandlerOp :=
  [HandlerOp.startTx "CP001" 1 "VALID001" 1000 10 none 777001 false 10,
   HandlerOp.stopTx "CP001" 777001 20 16000 none (some "Local") [] 20]

/-- C5, witness: the invariant theorem applied at the concrete C5 input. -/
theorem C5_energy_invariant_witness :
    energyInv dbC5 ∧ energyInv (applyOps dbC5 opsC5) :=
  ⟨by decide, C5_energy_invariant dbC5 opsC5 (by decide)⟩

/-! ## C6 — RemoteStop pre-validation precedes networking -/

/-- C6: whenever the transaction is absent, belongs to a different charge
point, or is not Active, `remote_stop_transaction` returns
`{success: false, status: "Rejected"}` and no Call is sent. -/
theorem C6_remote_stop_prevalidates (db : Db) (registry : List String)
    (cpId : String) (txId : Int) (cpResponse : String)
    (h : ∀ s ∈ db.sessions, s.transactionId = txId →
      s.chargePointId ≠ cpId ∨ s.status ≠ "Active") :
    (remote_stop_transaction db registry cpId txId cpResponse).1.success =
        false ∧
    (remote_stop_transaction db registry cpId txId cpResponse).1.status =
        "Rejected" ∧
    (remote_stop_transaction db registry cpId txId cpResponse).2 = none := by
  unfold remote_stop_transaction
  cases hfind : db.sessions.find? (fun s =>
      s.transactionId == txId && s.chargePointId == cpId) with
  | none => simp
  | some s =>
    have hmem : s ∈ db.sessions := List.mem_of_find?_eq_some hfind
    have hpred := List.find?_some hfind
    simp only [Bool.and_eq_true, beq_iff_eq] at hpred
    obtain ⟨htx, hcp⟩ := hpred
    rcases h s hmem htx with hne | hstat
    · exact absurd hcp hne
    · simp [hstat]

/-- A session belonging to CP001: transaction 123, Active. -/
def sC6 : SessionRow :=
  ⟨1, 123, "CP001", 2, 1, 1000, none, 50, none, "Active", none, none,
   none, none⟩

/-- The database for the C6 witness. -/
def dbC6 : Db := ⟨[], [], [sC6], [], 2⟩

/-- C6, witness: RemoteStop addressed to CP002 while transaction 123
belongs to CP001 is rejected with no Call sent. -/
theorem C6_remote_stop_prevalidates_witness :
    (∀ s ∈ dbC6.sessions, s.transactionId = 123 →
      s.chargePointId ≠ "CP002" ∨ s.status ≠ "Active") ∧
    ((remote_stop_transaction dbC6 ["CP001", "CP002"] "CP002" 123
        "Accepted").1.success = false ∧
     (remote_stop_transaction dbC6 ["CP001", "CP002"] "CP002" 123
        "Accepted").1.status = "Rejected" ∧
     (remote_stop_transaction dbC6 ["CP001", "CP002"] "CP002" 123
        "Accepted").2 = none) :=
  ⟨by decide,
   C6_remote_stop_prevalidates dbC6 ["CP001", "CP002"] "CP002" 123
     "Accepted" (by decide)⟩

/-! ## C7 — the "online but not reachable" error -/

/-- A charge point row that is online in the database. -/
def cpC7 : ChargePointRow :=
  ⟨"CP001", some "V", some "M", none, none, "Available", some 5, true,
   some "Accepted"⟩

/-- An Active session of CP001 for the C7 stop command. -/
def sC7 : SessionRow :=
  ⟨1, 123, "CP001", 2, 1, 1000, none, 50, none, "Active", none, none,
   none, none⟩

/-- The database for the C7 input: CP001 online, transaction 123 Active. -/
def dbC7 : Db := ⟨[cpC7], [], [sC7], [], 2⟩

/-- C7, counterexample: the registry is empty and CP001's row says
`is_online = true`, yet `remote_stop_transaction` answers the plain
"Charge point not connected" error, not the distinct online-elsewhere
error — the stop path never consults the database row. -/
theorem C7_counterexample :
    cpC7.isOnline = true ∧
    (remote_stop_transaction dbC7 [] "CP001" 123 "Accepted").1.error =
      some cpNotConnectedError ∧
    (remote_stop_transaction dbC7 [] "CP001" 123 "Accepted").1.error ≠
      some cpOnlineElsewhereError := by decide

/-- C7, amended: only `remote_start_transaction` distinguishes "online but
not reachable from this process" from "not connected"; with the charge
point absent from the registry but `is_online = true` in the database,
remoteStart returns the distinct online-elsewhere error while remoteStop
(here on a valid Active transaction) returns the plain
"Charge point not connected" error. -/
theorem C7_online_elsewhere_start_only (db : Db) (registry : List String)
    (cpId : String) (idTag : String) (connectorId : Option Int) (now : Nat)
    (cpResponse : String) (cp : ChargePointRow) (txId : Int)
    (s : SessionRow)
    (hreg : registry.contains cpId = false)
    (hcp : db.chargePoints.find? (fun c => c.id == cpId) = some cp)
    (honline : cp.isOnline = true)
    (hfind : db.sessions.find? (fun x =>
      x.transactionId == txId && x.chargePointId == cpId) = some s)
    (hactive : s.status = "Active") :
    remote_start_transaction db registry cpId idTag connectorId now
        cpResponse =
      (⟨false, "Rejected", some cpOnlineElsewhereError⟩, none) ∧
    remote_stop_transaction db registry cpId txId cpResponse =
      (⟨false, "Rejected", some cpNotConnectedError⟩, none) := by
  have hreg' : cpId ∉ registry := by simpa using hreg
  constructor
  · unfold remote_start_transaction
    rw [hcp]
    simp [hreg', honline]
  · unfold remote_stop_transaction
    rw [hfind]
    simp [hactive, hreg']

/-- C7, witness: the amended theorem applied at the concrete C7 input. -/
theorem C7_online_elsewhere_start_only_witness :
    (([] : List String).contains "CP001" = false ∧
     dbC7.chargePoints.find? (fun c => c.id == "CP001") = some cpC7 ∧
     cpC7.isOnline = true ∧
     dbC7.sessions.find? (fun x =>
       x.transactionId == 123 && x.chargePointId == "CP001") = some sC7 ∧
     sC7.status = "Active") ∧
    (remote_start_transaction dbC7 [] "CP001" "VALID001" none 20
        "Accepted" =
      (⟨false, "Rejected", some cpOnlineElsewhereError⟩, none) ∧
     remote_stop_transaction dbC7 [] "CP001" 123 "Accepted" =
      (⟨false, "Rejected", some cpNotConnectedError⟩, none)) :=
  ⟨by decide,
   C7_online_elsewhere_start_only dbC7 [] "CP001" "VALID001" none 20
     "Accepted" cpC7 123 sC7 (by decide) (by decide) (by decide)
     (by decide) (by decide)⟩

/-! ## C8 — StopTransaction for an unknown transaction still succeeds -/

/-- C8: when no Session matches the transactionId, the StopTransaction
handler still returns the successful CallResult payload — `{}` without an
idTag, `{idTagInfo}` with one — and the sessions table is unchanged. -/
theorem C8_unknown_tx_still_succeeds (db : Db) (cpId : String) (txId : Int)
    (ts : Nat) (ms : Int) (idTag : Option String) (reason : Option String)
    (td : List MeterValueEntry) (now : Nat)
    (hfind : db.sessions.find? (fun s => s.transactionId == txId) = none) :
    (on_stop_transaction db cpId txId ts ms idTag reason td now).1 =
      ⟨match idTag with
       | some t =>
         if t == "" then none
         else some (get_id_tag_info db.idTags t now)
       | none => none⟩ ∧
    (on_stop_transaction db cpId txId ts ms idTag reason td now).2.sessions
      = db.sessions := by
  refine ⟨rfl, ?_⟩
  exact stop_sessions_of_find_none db cpId txId ts ms idTag reason td now
    hfind

/-- The database for the C8 witness: one Accepted tag, no session with
transaction 999. -/
def dbC8 : Db := ⟨[], [⟨2, "VALID001", "Accepted", none, none⟩], [], [], 1⟩

/-- C8, witness: a StopTransaction for the unknown transaction 999 with an
idTag returns `{idTagInfo}` and leaves the sessions table empty. -/
theorem C8_unknown_tx_still_succeeds_witness :
    dbC8.sessions.find? (fun s => s.transactionId == 999) = none ∧
    ((on_stop_transaction dbC8 "CP001" 999 70 9000 (some "VALID001") none
        [] 70).1 =
      ⟨match some "VALID001" with
       | some t =>
         if t == "" then none
         else some (get_id_tag_info dbC8.idTags t 70)
       | none => none⟩ ∧
     (on_stop_transaction dbC8 "CP001" 999 70 9000 (some "VALID001") none
        [] 70).2.sessions = dbC8.sessions) :=
  ⟨by decide,
   C8_unknown_tx_still_succeeds dbC8 "CP001" 999 70 9000 (some "VALID001")
     none [] 70 (by decide)⟩

/-! ## C9 — register's write-through on an existing row -/

/-- An existing charge point row whose status is `Charging`. -/
def cpC9 : ChargePointRow :=
  ⟨"CP001", some "V", some "M", some "SN1", some "FW1", "Charging", some 5,
   false, some "Accepted"⟩

/-- The database for the C9 input. -/
def dbC9 : Db := ⟨[cpC9], [], [], [], 1⟩

/-- C9, counterexample: registering CP001 while its row has status
`Charging` rewrites the status to `Available`, so the status field is not
left unchanged when a prior row exists. -/
theorem C9_counterexample :
    cpC9.status = "Charging" ∧
    ((register_charge_point dbC9 [] "CP001" 10).1.chargePoints.find?
        (fun c => c.id == "CP001")).map (fun c => c.status) =
      some "Available" ∧
    ((register_charge_point dbC9 [] "CP001" 10).1.chargePoints.find?
        (fun c => c.id == "CP001")).map (fun c => c.status) ≠
      some "Charging" := by decide

/-- C9, amended: when a ChargePoint row already exists, the write-through
updates `is_online`, `last_seen` AND overwrites `status := "Available"`;
every other field of the row (vendor, model, serial number, firmware,
boot status) is left unchanged. -/
theorem C9_register_existing_row (db : Db) (registry : List String)
    (cpId : String) (now : Nat) (cp : ChargePointRow)
    (hfind : db.chargePoints.find? (fun c => c.id == cpId) = some cp) :
    (register_charge_point db registry cpId now).1.chargePoints =
      db.chargePoints.map (fun c =>
        if c.id == cpId then
          { c with
              isOnline := true,
              lastSeen := some now,
              status := "Available" }
        else c) := by
  unfold register_charge_point
  rw [hfind]

/-- C9, witness: the amended theorem applied at the concrete C9 input. -/
theorem C9_register_existing_row_witness :
    dbC9.chargePoints.find? (fun c => c.id == "CP001") = some cpC9 ∧
    (register_charge_point dbC9 [] "CP001" 10).1.chargePoints =
      dbC9.chargePoints.map (fun c =>
        if c.id == "CP001" then
          { c with
              isOnline := true,
              lastSeen := some 10,
              status := "Available" }
        else c) :=
  ⟨by decide,
   C9_register_existing_row dbC9 [] "CP001" 10 cpC9 (by decide)⟩

/-! ## C10 — register creates a default row when none exists -/

/-- C10: when no ChargePoint row exists for the id, `register_charge_point`
itself creates one with `vendor = "Mock"`, `model = "TestCP"`,
`status = "Available"`, `is_online = true` and `last_seen = now` (before
any BootNotification), and records the id in the registry. -/
theorem C10_register_creates_default_row (db : Db)
    (registry : List String) (cpId : String) (now : Nat)
    (hfind : db.chargePoints.find? (fun c => c.id == cpId) = none) :
    (register_charge_point db registry cpId now).1.chargePoints =
      db.chargePoints ++
        [{ id := cpId, vendor := some "Mock", model := some "TestCP",
           chargePointSerialNumber := none, firmwareVersion := none,
           status := "Available", lastSeen := some now, isOnline := true,
           bootStatus := some "Accepted" }] ∧
    (register_charge_point db registry cpId now).2.contains cpId = true := by
  unfold register_charge_point
  rw [hfind]
  exact ⟨rfl, by simp⟩

/-- C10, witness: the theorem applied to an empty database. -/
theorem C10_register_creates_default_row_witness :
    (⟨[], [], [], [], 1⟩ : Db).chargePoints.find? (fun c => c.id == "CP009")
        = none ∧
    ((register_charge_point ⟨[], [], [], [], 1⟩ [] "CP009" 10).1.chargePoints
        =
      ([] : List ChargePointRow) ++
        [{ id := "CP009", vendor := some "Mock", model := some "TestCP",
           chargePointSerialNumber := none, firmwareVersion := none,
           status := "Available", lastSeen := some 10, isOnline := true,
           bootStatus := some "Accepted" }] ∧
     (register_charge_point ⟨[], [], [], [], 1⟩ [] "CP009" 10).2.contains
        "CP009" = true) :=
  ⟨by decide,
   C10_register_creates_default_row ⟨[], [], [], [], 1⟩ [] "CP009" 10
     (by decide)⟩

end Voltaro
